import Mathlib

/-!
Verification development for the wine ETL reconciliation pipeline
(`etl_vins.py`, `etl_vins2.py`, `etl_vins_fix.py`).

Modelling conventions:
* pandas/numpy float columns are modelled as exact rationals (`ℚ`);
  a NaN cell is `none : Option ℚ`.
* `pd.to_numeric(errors='coerce')` on a raw cell is modelled by the
  `Cell` type: a cell either parses to a rational or coerces to null.
* pandas merges are modelled relationally: for each left row (in order)
  the matching right rows (in order) are emitted; a left merge emits a
  single null-padded row when there is no match.  Join keys are compared
  as `Option` values (pandas matches NA keys with NA keys).
* z-scores `z = (x - mean)/sqrt(var)` are irrational in general, so the
  embedding stores the signed square `sgnSq z = z * |z|` instead, which
  determines `z` uniquely (`t ↦ t * |t|` is strictly monotone, see
  `sgnSq_strictMono`).  Concretely a stored value `e` represents the
  z-score `sign e * sqrt |e|`, and for the code's z-score
  `z = (x - mean)/sqrt(popVar)` the stored value is
  `sgnSq (x - mean) / popVar`.  All order comparisons transfer:
  `z > c ↔ sgnSq z > sgnSq c` for the thresholds used here.
-/

/-- A raw csv cell destined for numeric coercion: it either parses to a
rational (after the comma→period rewrite) or fails and becomes null,
as `pd.to_numeric(errors='coerce')` does. -/
inductive Cell where
  | num (q : ℚ)
  | bad
deriving DecidableEq

/-- `pd.to_numeric(errors='coerce')` on one cell. -/
def parseCell : Cell → Option ℚ
  | .num q => some q
  | .bad => none

/-- Mean of a list of rationals (`Series.mean`); `0` on the empty list. -/
def meanQ (l : List ℚ) : ℚ := l.sum / l.length

/-- Sum of squared deviations from the mean. -/
def sumSqDev (l : List ℚ) : ℚ := (l.map fun x => (x - meanQ l) ^ 2).sum

/-- Population variance (ddof = 0), the default of `scipy.stats.zscore`. -/
def popVar (l : List ℚ) : ℚ := sumSqDev l / l.length

/-- Sample variance (ddof = 1), the default of `Series.std`; pandas returns
NaN (`none`) when fewer than two observations are present. -/
def sampleVarOpt (l : List ℚ) : Option ℚ :=
  if 2 ≤ l.length then some (sumSqDev l / ((l.length : ℚ) - 1)) else none

/-- Signed square `t * |t|`; the injective encoding used for z-scores. -/
def sgnSq (t : ℚ) : ℚ := t * |t|

/-- Signed-square encoding of `scipy.stats.zscore` (population ddof = 0):
the z-score of `x` against population `ps` is `(x - mean)/sqrt(popVar)`,
whose signed square is `sgnSq (x - mean) / popVar`.  When the population
variance is zero the float computation is `0/0 = NaN`, i.e. `none`. -/
def zEnc (ps : List ℚ) (x : ℚ) : Option ℚ :=
  if popVar ps = 0 then none else some (sgnSq (x - meanQ ps) / popVar ps)

namespace EtlVins

/-!
Shallow embedding of the legacy pipeline `etl_vins.py` / `etl_vins2.py`
(the two files share `charger_et_joindre_donnees` and
`transformer_et_enrichir_donnees`; the premium/ordinaire split of
`exporter_rapports` is from `etl_vins2.py`).
-/

/-- One ERP row after the initial `to_numeric` coercion of `product_id`;
`price` is still the raw cell (comma decimal), cleaned after the joins. -/
structure ErpRow where
  product_id : Option Int
  price : Cell
  stock_quantity : Option Int
  stock_status : String
deriving DecidableEq

/-- One web row after `sku` is renamed to `id_web` and coerced. -/
structure WebRow where
  id_web : Option Int
  post_type : String
  total_sales : Cell
deriving DecidableEq

/-- One linkage row after coercion of both keys. -/
structure LiaisonRow where
  product_id : Option Int
  id_web : Option Int
deriving DecidableEq

/-- Row shape after `pd.merge(df_erp, df_liaison, on='product_id', how='left')`. -/
structure MergedRow where
  product_id : Option Int
  price : Cell
  stock_quantity : Option Int
  stock_status : String
  id_web : Option Int
deriving DecidableEq

/-- Row shape after the second left merge with `df_web[['id_web','total_sales']]`.
`webMatch` records the matched web row (provenance); the code's table is its
projection to `id_web` and `total_sales`. -/
structure PreRow where
  product_id : Option Int
  price : Cell
  stock_quantity : Option Int
  stock_status : String
  id_web : Option Int
  webMatch : Option WebRow
deriving DecidableEq

/-- `pd.merge(df_erp, df_liaison, on='product_id', how='left')`. -/
def merge_erp_liaison (erp : List ErpRow) (liaison : List LiaisonRow) :
    List MergedRow :=
  erp.flatMap fun e =>
    let hits := liaison.filter fun l => decide (l.product_id = e.product_id)
    if hits.isEmpty then
      [⟨e.product_id, e.price, e.stock_quantity, e.stock_status, none⟩]
    else
      hits.map fun l =>
        ⟨e.product_id, e.price, e.stock_quantity, e.stock_status, l.id_web⟩

/-- `pd.merge(df_merged, df_web_sales, on='id_web', how='left')`. -/
def merge_web (ms : List MergedRow) (web : List WebRow) : List PreRow :=
  ms.flatMap fun m =>
    let hits := web.filter fun w => decide (w.id_web = m.id_web)
    if hits.isEmpty then
      [⟨m.product_id, m.price, m.stock_quantity, m.stock_status, m.id_web, none⟩]
    else
      hits.map fun w =>
        ⟨m.product_id, m.price, m.stock_quantity, m.stock_status, m.id_web, some w⟩

/-- Row of the reconciled table returned by `charger_et_joindre_donnees`:
price is non-null (the code does `dropna(subset=['price'])`). -/
structure FinalRow where
  product_id : Option Int
  id_web : Option Int
  price : ℚ
  stock_quantity : Option Int
  stock_status : String
  total_sales : Option ℚ
  webMatch : Option WebRow
deriving DecidableEq

/-- Phase 1 of `etl_vins.py`: the two left joins, price cleaning
(comma→period then coerce), `total_sales.fillna(0)` then coercion, and
`dropna(subset=['price'])`.  A row lacking a web match gets
`total_sales = 0` from the `fillna`; a matched row keeps the coercion of
the matched web cell. -/
def charger_et_joindre_donnees (erp : List ErpRow) (web : List WebRow)
    (liaison : List LiaisonRow) : List FinalRow :=
  (merge_web (merge_erp_liaison erp liaison) web).filterMap fun r =>
    (parseCell r.price).map fun p =>
      ⟨r.product_id, r.id_web, p, r.stock_quantity, r.stock_status,
       (match r.webMatch with
        | none => some 0
        | some w => parseCell w.total_sales), r.webMatch⟩

/-- Reconciled row enriched by phase 2 (`CA_produit`, `Z_Score_Prix` in the
signed-square encoding, `est_millésime`). -/
structure EnrichedRow extends FinalRow where
  CA_produit : Option ℚ
  Z_Score_Prix : Option ℚ
  est_millesime : Bool
deriving DecidableEq

/-- The reporting threshold (`seuil_millésime = 2`). -/
def seuil_millesime : ℚ := 2

/-- The `Z_Score_Prix` column: the guard `std_price == 0` uses the pandas
sample std (NaN when fewer than two rows, and NaN == 0 is false), and on
the else branch `Z_Score_Prix = scipy.stats.zscore(price)` (population
ddof = 0, NaN when that std is 0). -/
def zColumn (df : List FinalRow) (x : ℚ) : Option ℚ :=
  if sampleVarOpt (df.map FinalRow.price) = some 0 then some 0
  else zEnc (df.map FinalRow.price) x

/-- The `est_millésime` column: `Z_Score_Prix > seuil_millésime` — a
signed comparison (no absolute value in the code), encoded as
`sgnSq seuil < zEnc`; a NaN z-score compares false. -/
def flagColumn (df : List FinalRow) (x : ℚ) : Bool :=
  match zColumn df x with
  | none => false
  | some z => decide (sgnSq seuil_millesime < z)

/-- Phase 2 of `etl_vins.py` / `etl_vins2.py`:
`CA_produit = price * total_sales`, the z-score column and the outlier
flag, row by row over the reconciled table. -/
def transformer_et_enrichir_donnees (df : List FinalRow) : List EnrichedRow :=
  df.map fun r =>
    { toFinalRow := r
      CA_produit := r.total_sales.map fun t => r.price * t
      Z_Score_Prix := zColumn df r.price
      est_millesime := flagColumn df r.price }

/-- pandas `series > t` on a possibly-NaN value (NaN compares false). -/
def optGtB (o : Option ℚ) (t : ℚ) : Bool :=
  match o with
  | none => false
  | some z => decide (t < z)

/-- pandas `series <= t` on a possibly-NaN value (NaN compares false). -/
def optLeB (o : Option ℚ) (t : ℚ) : Bool :=
  match o with
  | none => false
  | some z => decide (z ≤ t)

/-- `df_premium = df[df['Z_Score_Prix'] > seuil]` (etl_vins2.py line 93). -/
def df_premium (df : List EnrichedRow) : List EnrichedRow :=
  df.filter fun r => optGtB r.Z_Score_Prix (sgnSq seuil_millesime)

/-- `df_ordinaire = df[df['Z_Score_Prix'] <= seuil]` (etl_vins2.py line 94). -/
def df_ordinaire (df : List EnrichedRow) : List EnrichedRow :=
  df.filter fun r => optLeB r.Z_Score_Prix (sgnSq seuil_millesime)

/-- The claim's reading of the filter invariant: every row of the
reconciled table either has no web provenance or comes from a web row
whose `post_type` is "product". -/
def webMatchIsProduct (r : FinalRow) : Bool :=
  match r.webMatch with
  | none => true
  | some w => decide (w.post_type = "product")

end EtlVins

namespace EtlVinsFix

/-!
Shallow embedding of `etl_vins_fix.py`.  The row types capture the state
after `load_and_clean_data`: `product_id` coerced to nullable Int64,
`sku`/`id_web` cleaned as nullable strings (never converted to numbers in
this variant), `price` coerced to a nullable float, and `total_sales` /
`stock_quantity` coerced with `fillna(0)`.
-/

/-- One web row after `load_and_clean_data`. -/
structure FWebRow where
  sku : Option String
  post_type : String
  total_sales : Int
deriving DecidableEq

/-- One ERP row after `load_and_clean_data`. -/
structure FErpRow where
  product_id : Option Int
  price : Option ℚ
  stock_quantity : Int
  stock_status : String
deriving DecidableEq

/-- One linkage row after `load_and_clean_data`. -/
structure FLiaisonRow where
  product_id : Option Int
  id_web : Option String
deriving DecidableEq

/-- Row of `df_final` produced by `transform_and_join`: inner joins keep
both key columns (`id_web` from the linkage side, `sku` from the web side,
equal by the join condition) plus the ERP fields and the web fields. -/
structure FFinalRow where
  product_id_erp : Option Int
  price : Option ℚ
  stock_quantity : Int
  stock_status : String
  id_web : Option String
  sku : Option String
  post_type : String
  total_sales : Int
deriving DecidableEq

/-- `transform_and_join` (etl_vins_fix.py lines 79-111): filter web to
`post_type == 'product'`, drop linkage rows with a null key, inner join
ERP with the cleaned linkage on `product_id`, then inner join with the
filtered web table on `id_web = sku`.  Returns the final table, the
filtered web table and the cleaned linkage table (as the code does). -/
def transform_and_join (web : List FWebRow) (erp : List FErpRow)
    (liaison : List FLiaisonRow) :
    List FFinalRow × List FWebRow × List FLiaisonRow :=
  let df_web_products := web.filter fun w => decide (w.post_type = "product")
  let df_liaison_clean :=
    liaison.filter fun l => l.id_web.isSome && l.product_id.isSome
  let merged := erp.flatMap fun e =>
    (df_liaison_clean.filter fun l => decide (l.product_id = e.product_id)).map
      fun l => (e, l)
  let df_final := merged.flatMap fun el =>
    (df_web_products.filter fun w => decide (w.sku = el.2.id_web)).map fun w =>
      ⟨el.1.product_id, el.1.price, el.1.stock_quantity, el.1.stock_status,
       el.2.id_web, w.sku, w.post_type, w.total_sales⟩
  (df_final, df_web_products, df_liaison_clean)

/-- The configured expected aggregate revenue (`EXPECTED_CA = 70568.60`). -/
def EXPECTED_CA : ℚ := 7056860 / 100

/-- `np.isclose(a, b, atol, rtol)`: `|a - b| <= atol + rtol * |b|`.
The call in `run_data_quality_checks` passes `atol=0.01` and leaves
numpy's default `rtol=1e-05` in place. -/
def np_isclose (a b atol rtol : ℚ) : Bool :=
  decide (|a - b| ≤ atol + rtol * |b|)

/-- Per-row revenue `CA = price * total_sales`; NaN price gives NaN CA. -/
def rowCA (r : FFinalRow) : Option ℚ := r.price.map fun p => p * r.total_sales

/-- `df_final['CA'].sum()` — pandas `sum` skips NaN entries. -/
def caSum (df : List FFinalRow) : ℚ := (df.filterMap rowCA).sum

/-- TEST A1/A3: the final row count must equal the configured 714. -/
def count_check (df : List FFinalRow) : Bool := decide (df.length = 714)

/-- TEST A4: `np.isclose(calculated_ca, EXPECTED_CA, atol=0.01)` with the
default `rtol = 1e-05`. -/
def ca_check (df : List FFinalRow) : Bool :=
  np_isclose (caSum df) EXPECTED_CA (1 / 100) (1 / 100000)

/-- `run_data_quality_checks` returns true iff both hard checks pass. -/
def run_data_quality_checks (df : List FFinalRow) : Bool :=
  count_check df && ca_check df

/-- `df['sku'].duplicated().sum()`: number of entries equal to an earlier
entry, i.e. length minus the number of distinct values. -/
def countDuplicates (l : List (Option String)) : Nat :=
  l.length - l.dedup.length

/-- `web_without_erp`: web product rows whose `sku` is absent from the
cleaned linkage table's `id_web` column. -/
def web_without_erp (df_web_products : List FWebRow)
    (df_liaison_clean : List FLiaisonRow) : List FWebRow :=
  df_web_products.filter fun w =>
    !decide (w.sku ∈ df_liaison_clean.map FLiaisonRow.id_web)

/-- The non-null price population the audit z-score is computed over
(`df_final['price'].replace(inf, nan).dropna()`). -/
def pricesOf (df : List FFinalRow) : List ℚ := df.filterMap (·.price)

/-- Audit outlier flag of one row (etl_vins_fix.py lines 171-177): rows
with a null price are not in the z-score population and are never
selected; otherwise the row is an outlier iff `|z| > 3`, i.e.
`|zEnc| > sgnSq 3 = 9` in the signed-square encoding (a NaN z-score —
zero population variance — compares false). -/
def auditOutlierFlag (ps : List ℚ) (r : FFinalRow) : Bool :=
  match r.price with
  | none => false
  | some p =>
    match zEnc ps p with
    | none => false
    | some z => decide (sgnSq 3 < |z|)

/-- `drop_duplicates(subset=['sku'], keep='first')`: keep the first row
bearing each `sku`, in the original order. -/
def dropDupSku : List FWebRow → List (Option String) → List FWebRow
  | [], _ => []
  | w :: ws, seen =>
    if w.sku ∈ seen then dropDupSku ws seen
    else w :: dropDupSku ws (w.sku :: seen)

/-- `handle_anomalies` (etl_vins_fix.py lines 197-227).  Correction 1
deduplicates a copy of the web table — note the code never uses
`df_web_products_cleaned` afterwards, so it does not affect the returned
table.  Correction 2 removes from `df_final` the rows whose `sku` is in
the orphan list when that list is non-empty, and returns a copy of
`df_final` otherwise. -/
def handle_anomalies (df_final : List FFinalRow)
    (df_web_products : List FWebRow) (web_duplicates_count : Nat)
    (web_without_erp_df : List FWebRow) : List FFinalRow :=
  let _df_web_products_cleaned :=
    if 0 < web_duplicates_count then dropDupSku df_web_products []
    else df_web_products
  let critical_unlinked_skus := web_without_erp_df.map FWebRow.sku
  if critical_unlinked_skus.isEmpty then df_final
  else df_final.filter fun r => !decide (r.sku ∈ critical_unlinked_skus)

/-- The remediation step as the pipeline composes it: the audit counts of
`run_advanced_dq_checks` feed `handle_anomalies`. -/
def remediate (df_final : List FFinalRow) (df_web_products : List FWebRow)
    (df_liaison_clean : List FLiaisonRow) : List FFinalRow :=
  handle_anomalies df_final df_web_products
    (countDuplicates (df_web_products.map FWebRow.sku))
    (web_without_erp df_web_products df_liaison_clean)

/-- Outcome of one `etl_pipeline` run: whether the hard quality gate
passed, and the migratable table when the run reached step 4/5 (`none`
when the run halted at the gate). -/
structure PipelineResult where
  dq_passed : Bool
  migratable : Option (List FFinalRow)
deriving DecidableEq

/-- `etl_pipeline` (etl_vins_fix.py lines 232-263): load/clean is the
caller's input here; join, run the hard gate, and only on success run the
audit, the remediation and the migration hand-off. -/
def etl_pipeline (web : List FWebRow) (erp : List FErpRow)
    (liaison : List FLiaisonRow) : PipelineResult :=
  let t := transform_and_join web erp liaison
  if run_data_quality_checks t.1 then
    ⟨true, some (remediate t.1 t.2.1 t.2.2)⟩
  else
    ⟨false, none⟩

end EtlVinsFix

/-!  Definitions taken from the specification's words, for comparison with
the code-derived definitions above (refinement checks).  -/

/-- The specification's z-score formula, in the signed-square encoding:
"`z = (price - mean(price)) / stddev(price)` … sample, i.e. divide by
N−1".  With sample variance `v`, the signed square of
`(x - mean)/sqrt v` is `sgnSq (x - mean) / v`; the value is undefined
when the sample variance is undefined or zero. -/
def zEncSampleSpec (ps : List ℚ) (x : ℚ) : Option ℚ :=
  match sampleVarOpt ps with
  | none => none
  | some v => if v = 0 then none else some (sgnSq (x - meanQ ps) / v)

/-- The claim's outlier rule: "true exactly when the magnitude (absolute
value) of the row's price z-score exceeds the configured threshold",
i.e. `|z| > t`, which in the signed-square encoding is
`sgnSq t < |zEnc z|` (an undefined z-score flags false). -/
def specMagnitudeFlag (z : Option ℚ) (t : ℚ) : Bool :=
  match z with
  | none => false
  | some e => decide (sgnSq t < |e|)

/-!  Concrete tables used by the counterexamples and witnesses.  -/

/-- Legacy ERP table: one product with a valid price. -/
def erpOne : List EtlVins.ErpRow := [⟨some 1, .num 10, some 5, "instock"⟩]

/-- Legacy web table whose single row is NOT a product (`post_type`
"page") but carries the linked `id_web` 7. -/
def webPage : List EtlVins.WebRow := [⟨some 7, "page", .num 4⟩]

/-- Legacy linkage: product 1 ↔ web id 7. -/
def liaisonOne : List EtlVins.LiaisonRow := [⟨some 1, some 7⟩]

/-- Legacy ERP table with a row whose price fails numeric coercion. -/
def erpBadPrice : List EtlVins.ErpRow :=
  [⟨some 1, .num 10, some 0, "instock"⟩, ⟨some 2, .bad, some 0, "instock"⟩]

/-- Reconciled legacy table with prices 1, 2, 3. -/
def dfPrices123 : List EtlVins.FinalRow :=
  [⟨some 1, none, 1, none, "", some 0, none⟩,
   ⟨some 2, none, 2, none, "", some 0, none⟩,
   ⟨some 3, none, 3, none, "", some 0, none⟩]

/-- Reconciled legacy table with a single row (price 5). -/
def dfSingle5 : List EtlVins.FinalRow := [⟨some 1, none, 5, none, "", some 0, none⟩]

/-- Reconciled legacy table with a single row (price 7). -/
def dfSingle7 : List EtlVins.FinalRow := [⟨some 1, none, 7, none, "", some 0, none⟩]

/-- Reconciled legacy table with two rows of equal price 5. -/
def dfPair5 : List EtlVins.FinalRow :=
  [⟨some 1, none, 5, none, "", some 0, none⟩,
   ⟨some 2, none, 5, none, "", some 0, none⟩]

/-- Reconciled legacy table with two rows, prices 1 and 2. -/
def dfPair12 : List EtlVins.FinalRow :=
  [⟨some 1, none, 1, none, "", some 0, none⟩,
   ⟨some 2, none, 2, none, "", some 0, none⟩]

/-- Reconciled legacy table whose first row (price 0) has z-score −3
against the nine rows of price 10 (mean 9, population variance 9). -/
def dfZNeg : List EtlVins.FinalRow :=
  ⟨some 0, none, 0, none, "", some 0, none⟩ ::
    (List.range 9).map fun i => ⟨some ((i : Int) + 1), none, 10, none, "", some 0, none⟩

/-- Fix-pipeline web table: two product rows sharing sku "7". -/
def webDup7 : List EtlVinsFix.FWebRow :=
  [⟨some "7", "product", 2⟩, ⟨some "7", "product", 5⟩]

/-- Fix-pipeline web table: a single product row with sku "7". -/
def webProd7 : List EtlVinsFix.FWebRow := [⟨some "7", "product", 2⟩]

/-- Fix-pipeline ERP table: product 1, price 10. -/
def erpFix : List EtlVinsFix.FErpRow := [⟨some 1, some 10, 0, "instock"⟩]

/-- Fix-pipeline ERP table: product 1 with a null (unparseable) price. -/
def erpFixNullPrice : List EtlVinsFix.FErpRow := [⟨some 1, none, 0, "instock"⟩]

/-- Fix-pipeline linkage: product 1 ↔ sku "7". -/
def liaisonFix : List EtlVinsFix.FLiaisonRow := [⟨some 1, some "7"⟩]

/-- Reconciled fix table with a single row whose revenue sums to
70569.00 (0.40 above the configured expected total). -/
def dfSum70569 : List EtlVinsFix.FFinalRow :=
  [⟨some 1, some 70569, 0, "instock", some "1", some "1", "product", 1⟩]

/-- Reconciled fix table whose revenue sums to 70568.61. -/
def dfSum7056861c : List EtlVinsFix.FFinalRow :=
  [⟨some 1, some (7056861 / 100), 0, "instock", some "1", some "1", "product", 1⟩]

/-- Reconciled fix table whose revenue sums to 70600.00. -/
def dfSum70600 : List EtlVinsFix.FFinalRow :=
  [⟨some 1, some 70600, 0, "instock", some "1", some "1", "product", 1⟩]

/-!  General lemmas about the statistics helpers.  -/

theorem sgnSq_strictMono : StrictMono sgnSq := by
  intro a b hab
  unfold sgnSq
  rcases le_or_lt 0 a with ha | ha
  · rw [abs_of_nonneg ha, abs_of_pos (lt_of_le_of_lt ha hab)]
    nlinarith
  · rcases le_or_lt 0 b with hb | hb
    · rw [abs_of_neg ha, abs_of_nonneg hb]
      nlinarith
    · rw [abs_of_neg ha, abs_of_neg hb]
      nlinarith

theorem sumSqDev_nonneg (l : List ℚ) : 0 ≤ sumSqDev l := by
  refine List.sum_nonneg ?_
  intro x hx
  simp only [List.mem_map] at hx
  obtain ⟨y, _, rfl⟩ := hx
  positivity

theorem popVar_nonneg (l : List ℚ) : 0 ≤ popVar l :=
  div_nonneg (sumSqDev_nonneg l) (Nat.cast_nonneg _)

theorem eq_mean_of_sumSqDev_eq_zero {l : List ℚ} (h : sumSqDev l = 0) :
    ∀ x ∈ l, x = meanQ l := by
  intro x hx
  have hterm : (x - meanQ l) ^ 2 = 0 := by
    refine List.all_zero_of_le_zero_le_of_sum_eq_zero ?_ h ?_
    · intro y hy
      simp only [List.mem_map] at hy
      obtain ⟨z, _, rfl⟩ := hy
      positivity
    · exact List.mem_map.mpr ⟨x, hx, rfl⟩
  have := pow_eq_zero_iff (n := 2) (by norm_num) |>.mp hterm
  linarith

theorem sum_const_list (l : List ℚ) (c : ℚ) (h : ∀ x ∈ l, x = c) :
    l.sum = l.length * c := by
  induction l with
  | nil => simp
  | cons a t ih =>
    have ha : a = c := h a (List.mem_cons_self a t)
    have ht : ∀ x ∈ t, x = c := fun x hx => h x (List.mem_cons_of_mem a hx)
    simp only [List.sum_cons, List.length_cons, ih ht, ha]
    push_cast
    ring

theorem meanQ_const {l : List ℚ} {c : ℚ} (hl : l ≠ []) (h : ∀ x ∈ l, x = c) :
    meanQ l = c := by
  have hn : (l.length : ℚ) ≠ 0 := by
    simpa using hl
  unfold meanQ
  rw [sum_const_list l c h]
  field_simp

theorem sumSqDev_eq_zero_of_const {l : List ℚ} {c : ℚ} (hl : l ≠ [])
    (h : ∀ x ∈ l, x = c) : sumSqDev l = 0 := by
  refine List.sum_eq_zero ?_
  intro x hx
  simp only [List.mem_map] at hx
  obtain ⟨y, hy, rfl⟩ := hx
  rw [h y hy, meanQ_const hl h]
  ring

theorem sumSqDev_ne_zero_of_ne {l : List ℚ}
    (hne : ¬ ∀ x ∈ l, ∀ y ∈ l, x = y) : sumSqDev l ≠ 0 := by
  intro h0
  exact hne fun x hx y hy => by
    rw [eq_mean_of_sumSqDev_eq_zero h0 x hx, eq_mean_of_sumSqDev_eq_zero h0 y hy]

theorem popVar_ne_zero_of_ne {l : List ℚ} (hl : l ≠ [])
    (hne : ¬ ∀ x ∈ l, ∀ y ∈ l, x = y) : popVar l ≠ 0 := by
  have hn : (l.length : ℚ) ≠ 0 := by
    simpa using hl
  exact div_ne_zero (sumSqDev_ne_zero_of_ne hne) hn

theorem popVar_pos_of_ne {l : List ℚ} (hl : l ≠ [])
    (hne : ¬ ∀ x ∈ l, ∀ y ∈ l, x = y) : 0 < popVar l :=
  lt_of_le_of_ne (popVar_nonneg l) (Ne.symm (popVar_ne_zero_of_ne hl hne))

theorem sampleVarOpt_ne_some_zero {l : List ℚ} (h2 : 2 ≤ l.length)
    (hne : ¬ ∀ x ∈ l, ∀ y ∈ l, x = y) : sampleVarOpt l ≠ some 0 := by
  unfold sampleVarOpt
  rw [if_pos h2]
  intro h
  have hS : sumSqDev l / ((l.length : ℚ) - 1) = 0 := by
    simpa using h
  have hden : (l.length : ℚ) - 1 ≠ 0 := by
    have : (2 : ℚ) ≤ (l.length : ℚ) := by exact_mod_cast h2
    linarith
  exact sumSqDev_ne_zero_of_ne hne ((div_eq_zero_iff.mp hS).resolve_right hden)

/-!  Structural lemmas about the legacy pipeline.  -/

theorem charger_row_total_sales (erp : List EtlVins.ErpRow)
    (web : List EtlVins.WebRow) (liaison : List EtlVins.LiaisonRow)
    (r : EtlVins.FinalRow)
    (hr : r ∈ EtlVins.charger_et_joindre_donnees erp web liaison) :
    r.total_sales =
      match r.webMatch with
      | none => some 0
      | some w => parseCell w.total_sales := by
  unfold EtlVins.charger_et_joindre_donnees at hr
  simp only [List.mem_filterMap, Option.map_eq_some'] at hr
  obtain ⟨pre, hpre, p, hp, rfl⟩ := hr
  rfl

theorem transformer_mem (df : List EtlVins.FinalRow)
    (row : EtlVins.EnrichedRow)
    (hrow : row ∈ EtlVins.transformer_et_enrichir_donnees df) :
    ∃ r ∈ df, row =
      { toFinalRow := r
        CA_produit := r.total_sales.map fun t => r.price * t
        Z_Score_Prix := EtlVins.zColumn df r.price
        est_millesime := EtlVins.flagColumn df r.price } := by
  unfold EtlVins.transformer_et_enrichir_donnees at hrow
  simp only [List.mem_map] at hrow
  obtain ⟨r, hr, rfl⟩ := hrow
  exact ⟨r, hr, rfl⟩

/-- Claim C1: for every row of the reconciled table produced by the
legacy pipeline (phase 1 join/clean, phase 2 enrichment), the computed
revenue `CA_produit` equals `price * total_sales` — exactly, in the exact
rational model, hence in particular within the claimed 1e-9 tolerance —
and a row lacking a web match has `total_sales = 0` (not null). -/
theorem C1_revenue_eq_price_times_sales (erp : List EtlVins.ErpRow)
    (web : List EtlVins.WebRow) (liaison : List EtlVins.LiaisonRow)
    (row : EtlVins.EnrichedRow)
    (hrow : row ∈ EtlVins.transformer_et_enrichir_donnees
      (EtlVins.charger_et_joindre_donnees erp web liaison)) :
    row.CA_produit = row.total_sales.map (fun t => row.price * t) ∧
      (row.webMatch = none → row.total_sales = some 0) := by
  obtain ⟨r, hr, rfl⟩ := transformer_mem _ row hrow
  refine ⟨rfl, fun hnone => ?_⟩
  have := charger_row_total_sales erp web liaison r hr
  rw [show r.webMatch = none from hnone] at this
  exact this

/-- Witness for C1 at a concrete run: product 1 is linked to web id 7 but
the web table is empty, so the reconciled row has no web match and
`total_sales = 0`, giving `CA_produit = some (10 * 0)`. -/
theorem C1_revenue_eq_price_times_sales_witness :
    (⟨⟨some 1, some 7, 10, some 5, "instock", some 0, none⟩,
        some 0, none, false⟩ : EtlVins.EnrichedRow).CA_produit =
      (⟨⟨some 1, some 7, 10, some 5, "instock", some 0, none⟩,
        some 0, none, false⟩ : EtlVins.EnrichedRow).total_sales.map
        (fun t =>
          (⟨⟨some 1, some 7, 10, some 5, "instock", some 0, none⟩,
            some 0, none, false⟩ : EtlVins.EnrichedRow).price * t) ∧
      ((⟨⟨some 1, some 7, 10, some 5, "instock", some 0, none⟩,
          some 0, none, false⟩ : EtlVins.EnrichedRow).webMatch = none →
        (⟨⟨some 1, some 7, 10, some 5, "instock", some 0, none⟩,
          some 0, none, false⟩ : EtlVins.EnrichedRow).total_sales = some 0) :=
  C1_revenue_eq_price_times_sales erpOne [] liaisonOne _ (by with_unfolding_all decide)

/-- Claim C2 counterexample: the claim says the aggregate-total check
reports SUCCESS exactly when the revenue sum is within absolute
tolerance 0.01 of the expected total, but `np.isclose` keeps its default
relative tolerance `rtol = 1e-05`: a reconciled table summing to
70569.00 — 0.40 above the expected 70568.60, far outside 0.01 — still
passes the check. -/
theorem C2_counterexample :
    EtlVinsFix.ca_check dfSum70569 = true ∧
      ¬ (|EtlVinsFix.caSum dfSum70569 - EtlVinsFix.EXPECTED_CA| ≤ 1 / 100) := by
  constructor
  · with_unfolding_all decide
  · with_unfolding_all decide

/-- Claim C2 as amended: the aggregate-total check reports SUCCESS
exactly when the revenue sum is within `0.01 + 1e-05 * EXPECTED_CA`
(np.isclose with atol 0.01 and the default rtol 1e-05, ≈ 0.7157 here);
the claim's two scenario sums still behave as stated (70568.61 passes,
70600.00 fails); and whenever the hard gate fails, the pipeline halts
with no migratable table produced (no remediation, no migration). -/
theorem C2_amended :
    (∀ df : List EtlVinsFix.FFinalRow,
      EtlVinsFix.ca_check df = true ↔
        |EtlVinsFix.caSum df - EtlVinsFix.EXPECTED_CA| ≤
          1 / 100 + (1 / 100000) * EtlVinsFix.EXPECTED_CA) ∧
    EtlVinsFix.ca_check dfSum7056861c = true ∧
    EtlVinsFix.ca_check dfSum70600 = false ∧
    (∀ (web : List EtlVinsFix.FWebRow) (erp : List EtlVinsFix.FErpRow)
        (liaison : List EtlVinsFix.FLiaisonRow),
      EtlVinsFix.run_data_quality_checks
          (EtlVinsFix.transform_and_join web erp liaison).1 = false →
      EtlVinsFix.etl_pipeline web erp liaison = ⟨false, none⟩) := by
  refine ⟨?_, ?_, ?_, ?_⟩
  · intro df
    have habs : |EtlVinsFix.EXPECTED_CA| = EtlVinsFix.EXPECTED_CA := by
      rw [abs_of_pos]
      norm_num [EtlVinsFix.EXPECTED_CA]
    simp [EtlVinsFix.ca_check, EtlVinsFix.np_isclose, habs]
  · with_unfolding_all decide
  · with_unfolding_all decide
  · intro web erp liaison h
    simp only [EtlVinsFix.etl_pipeline, h]
    simp

/-- Witness for (the halting part of) the amended C2: the empty run joins
to an empty table, the row-count check fails, and the pipeline halts with
no migratable table. -/
theorem C2_amended_witness :
    EtlVinsFix.etl_pipeline [] [] [] = ⟨false, none⟩ :=
  C2_amended.2.2.2 [] [] [] (by with_unfolding_all decide)

/-- Claim C3 counterexample: in the legacy pipeline the web table is NOT
filtered on `post_type` before the second join — `etl_vins.py` joins
`df_web[['id_web','total_sales']]` as-is.  With a single web row of
`post_type = "page"` linked to product 1, the reconciled table contains a
row originating from that non-product web row, refuting the invariant as
stated "for every run". -/
theorem C3_counterexample :
    ¬ (∀ r ∈ EtlVins.charger_et_joindre_donnees erpOne webPage liaisonOne,
        EtlVins.webMatchIsProduct r = true) := by
  with_unfolding_all decide

/-- Claim C3 as amended: the filter invariant holds for the fixed
pipeline's Join Engine (`etl_vins_fix.transform_and_join` filters the web
table to `post_type == 'product'` before the second join), so every row
of its reconciled table carries `post_type = "product"`; the legacy
variants perform no such filter. -/
theorem C3_amended (web : List EtlVinsFix.FWebRow)
    (erp : List EtlVinsFix.FErpRow) (liaison : List EtlVinsFix.FLiaisonRow)
    (r : EtlVinsFix.FFinalRow)
    (hr : r ∈ (EtlVinsFix.transform_and_join web erp liaison).1) :
    r.post_type = "product" := by
  simp only [EtlVinsFix.transform_and_join, List.mem_flatMap, List.mem_map,
    List.mem_filter] at hr
  obtain ⟨el, _, w, ⟨⟨_, hprod⟩, _⟩, rfl⟩ := hr
  exact of_decide_eq_true hprod

/-- Witness for the amended C3 at a concrete run of the fixed pipeline. -/
theorem C3_amended_witness :
    (⟨some 1, some 10, 0, "instock", some "7", some "7", "product", 2⟩ :
      EtlVinsFix.FFinalRow).post_type = "product" :=
  C3_amended webProd7 erpFix liaisonFix _ (by with_unfolding_all decide)

/-- Claim C4, evaluated at the failing input: the web table has two
product rows with sku "7", both linked to ERP product 1, so the joined
table has two rows with the same web identity.  `handle_anomalies`
deduplicates only a copy of the web table (`df_web_products_cleaned`,
which it then discards) and filters `df_final` only against the orphan
sku list (empty here), so the "migratable" table it returns still
contains both sku-"7" rows — contradicting the function's own stated
purpose of correcting duplicate anomalies before migration. -/
theorem C4_code_bug_eval :
    ((EtlVinsFix.remediate
        (EtlVinsFix.transform_and_join webDup7 erpFix liaisonFix).1
        (EtlVinsFix.transform_and_join webDup7 erpFix liaisonFix).2.1
        (EtlVinsFix.transform_and_join webDup7 erpFix liaisonFix).2.2).map
      EtlVinsFix.FFinalRow.sku = [some "7", some "7"]) ∧
    ¬ ((EtlVinsFix.remediate
        (EtlVinsFix.transform_and_join webDup7 erpFix liaisonFix).1
        (EtlVinsFix.transform_and_join webDup7 erpFix liaisonFix).2.1
        (EtlVinsFix.transform_and_join webDup7 erpFix liaisonFix).2.2).map
      EtlVinsFix.FFinalRow.sku).Nodup := by
  constructor
  · with_unfolding_all decide
  · with_unfolding_all decide

/-- Claim C5: the Anomaly Remediator is idempotent — re-running the
remediation step (the audit-derived duplicate count and orphan list feed
`handle_anomalies`) on its own output table returns that table unchanged:
the only action taken on the final table is a filter against the orphan
sku list, and filtering twice with the same predicate is filtering
once. -/
theorem C5_remediate_idempotent (df : List EtlVinsFix.FFinalRow)
    (web : List EtlVinsFix.FWebRow) (liaison : List EtlVinsFix.FLiaisonRow) :
    EtlVinsFix.remediate (EtlVinsFix.remediate df web liaison) web liaison =
      EtlVinsFix.remediate df web liaison := by
  have hidem : ∀ (p : EtlVinsFix.FFinalRow → Bool) (l : List EtlVinsFix.FFinalRow),
      (l.filter p).filter p = l.filter p := by
    intro p l
    rw [List.filter_filter]
    exact List.filter_congr fun x _ => Bool.and_self (p x)
  unfold EtlVinsFix.remediate EtlVinsFix.handle_anomalies
  by_cases h :
      ((EtlVinsFix.web_without_erp web liaison).map EtlVinsFix.FWebRow.sku).isEmpty
  · simp [h]
  · simp [h, hidem]

/-- Claim C6 counterexample: the legacy pipeline does NOT retain rows
with a null price — `dropna(subset=['price'])` removes them from the
reconciled table.  With an ERP table whose second row (product 2) has an
unparseable price, the reconciled table keeps only product 1, and no row
with product 2 survives. -/
theorem C6_counterexample :
    ((EtlVins.charger_et_joindre_donnees erpBadPrice [] []).map
        EtlVins.FinalRow.product_id = [some 1]) ∧
      ¬ (∃ r ∈ EtlVins.charger_et_joindre_donnees erpBadPrice [] [],
          r.product_id = some 2) := by
  constructor
  · with_unfolding_all decide
  · with_unfolding_all decide

/-- Claim C6 as amended: in the fixed pipeline (`etl_vins_fix.py`) the
claim does hold — the join retains rows regardless of price (a linked ERP
row with a null price still appears in the reconciled table), a
null-price row contributes nothing to the z-score population, and the
audit never flags it as an outlier; in the legacy pipelines such rows are
instead dropped by `dropna`. -/
theorem C6_amended :
    (∀ (web : List EtlVinsFix.FWebRow) (erp : List EtlVinsFix.FErpRow)
        (liaison : List EtlVinsFix.FLiaisonRow) (e : EtlVinsFix.FErpRow)
        (l : EtlVinsFix.FLiaisonRow) (w : EtlVinsFix.FWebRow),
      e ∈ erp → l ∈ liaison → w ∈ web →
      l.product_id = e.product_id → l.id_web.isSome → l.product_id.isSome →
      w.post_type = "product" → w.sku = l.id_web →
      (⟨e.product_id, e.price, e.stock_quantity, e.stock_status, l.id_web,
          w.sku, w.post_type, w.total_sales⟩ : EtlVinsFix.FFinalRow) ∈
        (EtlVinsFix.transform_and_join web erp liaison).1) ∧
    (∀ (df : List EtlVinsFix.FFinalRow) (r : EtlVinsFix.FFinalRow),
      r.price = none →
      EtlVinsFix.auditOutlierFlag (EtlVinsFix.pricesOf df) r = false) ∧
    (∀ (df : List EtlVinsFix.FFinalRow) (r : EtlVinsFix.FFinalRow),
      r.price = none →
      EtlVinsFix.pricesOf (r :: df) = EtlVinsFix.pricesOf df) := by
  refine ⟨?_, ?_, ?_⟩
  · intro web erp liaison e l w he hl hw hkey hiw hip hprod hsku
    simp only [EtlVinsFix.transform_and_join]
    refine List.mem_flatMap.mpr ⟨(e, l), ?_, ?_⟩
    · refine List.mem_flatMap.mpr ⟨e, he, ?_⟩
      refine List.mem_map.mpr ⟨l, ?_, rfl⟩
      refine List.mem_filter.mpr ⟨?_, decide_eq_true hkey⟩
      exact List.mem_filter.mpr ⟨hl, (by rw [Bool.and_eq_true]; exact ⟨hiw, hip⟩)⟩
    · refine List.mem_map.mpr ⟨w, ?_, rfl⟩
      refine List.mem_filter.mpr ⟨?_, decide_eq_true hsku⟩
      exact List.mem_filter.mpr ⟨hw, decide_eq_true hprod⟩
  · intro df r hr
    unfold EtlVinsFix.auditOutlierFlag
    rw [hr]
  · intro df r hr
    unfold EtlVinsFix.pricesOf
    rw [List.filterMap_cons, hr]

/-- Witness for the amended C6: a linked ERP row whose price is null is
present in the fixed pipeline's reconciled table. -/
theorem C6_amended_witness :
    (⟨some 1, none, 0, "instock", some "7", some "7", "product", 2⟩ :
        EtlVinsFix.FFinalRow) ∈
      (EtlVinsFix.transform_and_join webProd7 erpFixNullPrice liaisonFix).1 :=
  C6_amended.1 webProd7 erpFixNullPrice liaisonFix
    ⟨some 1, none, 0, "instock"⟩ ⟨some 1, some "7"⟩ ⟨some "7", "product", 2⟩
    (by with_unfolding_all decide) (by with_unfolding_all decide)
    (by with_unfolding_all decide) rfl (by with_unfolding_all decide)
    (by with_unfolding_all decide) rfl rfl

/-- Under "at least two rows" and "not all prices equal" the guard
`std == 0` is false and the population variance is positive, so every row
of the transformer output carries the scipy (population) z-score. -/
theorem transformer_Z_of_ne (df : List EtlVins.FinalRow)
    (h2 : 2 ≤ df.length)
    (hne : ¬ ∀ r ∈ df, ∀ r' ∈ df, r.price = r'.price)
    (row : EtlVins.EnrichedRow)
    (hrow : row ∈ EtlVins.transformer_et_enrichir_donnees df) :
    0 < popVar (df.map EtlVins.FinalRow.price) ∧
    row.Z_Score_Prix =
      some (sgnSq (row.price - meanQ (df.map EtlVins.FinalRow.price)) /
        popVar (df.map EtlVins.FinalRow.price)) ∧
    row.est_millesime =
      decide (sgnSq EtlVins.seuil_millesime <
        sgnSq (row.price - meanQ (df.map EtlVins.FinalRow.price)) /
          popVar (df.map EtlVins.FinalRow.price)) := by
  set ps := df.map EtlVins.FinalRow.price with hps
  have hlen : 2 ≤ ps.length := by simpa [hps] using h2
  have hpsne : ¬ ∀ x ∈ ps, ∀ y ∈ ps, x = y := by
    intro hall
    refine hne fun r hr r' hr' => ?_
    exact hall r.price (List.mem_map.mpr ⟨r, hr, rfl⟩)
      r'.price (List.mem_map.mpr ⟨r', hr', rfl⟩)
  have hnil : ps ≠ [] := by
    intro h
    rw [h] at hlen
    simp at hlen
  have hguard : sampleVarOpt ps ≠ some 0 := sampleVarOpt_ne_some_zero hlen hpsne
  have hpv : 0 < popVar ps := popVar_pos_of_ne hnil hpsne
  obtain ⟨r, _, rfl⟩ := transformer_mem df row hrow
  have hz : EtlVins.zColumn df r.price =
      some (sgnSq (r.price - meanQ ps) / popVar ps) := by
    unfold EtlVins.zColumn
    rw [if_neg (by rw [← hps]; exact hguard)]
    unfold zEnc
    rw [← hps, if_neg (ne_of_gt hpv)]
  refine ⟨hpv, hz, ?_⟩
  show EtlVins.flagColumn df r.price = _
  unfold EtlVins.flagColumn
  rw [hz]

/-- Claim C7 counterexample: on the reconciled table with prices
1, 2, 3 the code's z-scores (via `scipy.stats.zscore`, population
standard deviation, ddof = 0) differ from the claim's formula with the
sample standard deviation (ddof = 1).  In the signed-square encoding —
which determines the z-score uniquely since `t ↦ t * |t|` is strictly
monotone — the code produces `[-3/2, 0, 3/2]` while the claimed formula
gives `[-1, 0, 1]`. -/
theorem C7_counterexample :
    ((EtlVins.transformer_et_enrichir_donnees dfPrices123).map
        (·.Z_Score_Prix) = [some (-(3 / 2)), some 0, some (3 / 2)]) ∧
    (dfPrices123.map (fun r => zEncSampleSpec [1, 2, 3] r.price) =
        [some (-1), some 0, some 1]) ∧
    (EtlVins.transformer_et_enrichir_donnees dfPrices123).map
        (·.Z_Score_Prix) ≠
      dfPrices123.map (fun r => zEncSampleSpec [1, 2, 3] r.price) := by
  refine ⟨?_, ?_, ?_⟩
  · with_unfolding_all decide
  · with_unfolding_all decide
  · with_unfolding_all decide

/-- Claim C7 as amended: whenever the reconciled table has at least two
rows and its prices are not all equal, each row's z-score is
`(price - mean) / stddev` with the POPULATION standard deviation
(divide by N — scipy's default ddof = 0), not the sample standard
deviation claimed; stated in the signed-square encoding. -/
theorem C7_amended (df : List EtlVins.FinalRow) (h2 : 2 ≤ df.length)
    (hne : ¬ ∀ r ∈ df, ∀ r' ∈ df, r.price = r'.price)
    (row : EtlVins.EnrichedRow)
    (hrow : row ∈ EtlVins.transformer_et_enrichir_donnees df) :
    row.Z_Score_Prix =
      some (sgnSq (row.price - meanQ (df.map EtlVins.FinalRow.price)) /
        popVar (df.map EtlVins.FinalRow.price)) :=
  (transformer_Z_of_ne df h2 hne row hrow).2.1

/-- Witness for the amended C7 at the prices-1,2,3 table: the row of
price 3 carries the population-variance z-score. -/
theorem C7_amended_witness :
    (⟨⟨some 3, none, 3, none, "", some 0, none⟩, some 0, some (3 / 2),
        false⟩ : EtlVins.EnrichedRow).Z_Score_Prix =
      some (sgnSq ((⟨⟨some 3, none, 3, none, "", some 0, none⟩, some 0,
          some (3 / 2), false⟩ : EtlVins.EnrichedRow).price -
            meanQ (dfPrices123.map EtlVins.FinalRow.price)) /
        popVar (dfPrices123.map EtlVins.FinalRow.price)) :=
  C7_amended dfPrices123 (by with_unfolding_all decide)
    (by with_unfolding_all decide) _ (by with_unfolding_all decide)

/-- Claim C8 counterexample: on a single-row reconciled table all prices
are (trivially) equal, yet the z-score is NaN rather than 0 — the pandas
sample std of one observation is NaN, so the `std == 0` guard does not
fire, and `scipy.stats.zscore` computes 0/0.  The claim's "every row's
price z-score is exactly 0" fails at this input. -/
theorem C8_counterexample :
    (∀ r ∈ dfSingle5, ∀ r' ∈ dfSingle5, r.price = r'.price) ∧
    ((EtlVins.transformer_et_enrichir_donnees dfSingle5).map
        (·.Z_Score_Prix) = [none]) ∧
    ¬ (∀ row ∈ EtlVins.transformer_et_enrichir_donnees dfSingle5,
        row.Z_Score_Prix = some 0) := by
  refine ⟨?_, ?_, ?_⟩
  · with_unfolding_all decide
  · with_unfolding_all decide
  · with_unfolding_all decide

/-- Claim C8 as amended: if the reconciled table has at least TWO rows
and all prices are equal, the sample standard deviation is exactly 0,
the guard fires, and every row's z-score is exactly 0 with no division
performed; a single-row table instead yields an undefined (NaN)
z-score. -/
theorem C8_amended (df : List EtlVins.FinalRow) (h2 : 2 ≤ df.length)
    (heq : ∀ r ∈ df, ∀ r' ∈ df, r.price = r'.price)
    (row : EtlVins.EnrichedRow)
    (hrow : row ∈ EtlVins.transformer_et_enrichir_donnees df) :
    row.Z_Score_Prix = some 0 := by
  set ps := df.map EtlVins.FinalRow.price with hps
  have hlen : 2 ≤ ps.length := by simpa [hps] using h2
  have hnil : ps ≠ [] := by
    intro h
    rw [h] at hlen
    simp at hlen
  obtain ⟨r0, hr0⟩ : ∃ r0, r0 ∈ df := by
    cases df with
    | nil => simp at h2
    | cons a t => exact ⟨a, List.mem_cons_self a t⟩
  have hconst : ∀ x ∈ ps, x = r0.price := by
    intro x hx
    obtain ⟨r, hr, rfl⟩ := List.mem_map.mp hx
    exact heq r hr r0 hr0
  have hvar : sampleVarOpt ps = some 0 := by
    unfold sampleVarOpt
    rw [if_pos hlen, sumSqDev_eq_zero_of_const hnil hconst]
    simp
  obtain ⟨r, _, rfl⟩ := transformer_mem df row hrow
  show EtlVins.zColumn df r.price = some 0
  unfold EtlVins.zColumn
  rw [← hps, if_pos hvar]

/-- Witness for the amended C8 at the two-row equal-price table. -/
theorem C8_amended_witness :
    (⟨⟨some 1, none, 5, none, "", some 0, none⟩, some 0, some 0,
        false⟩ : EtlVins.EnrichedRow).Z_Score_Prix = some 0 :=
  C8_amended dfPair5 (by with_unfolding_all decide)
    (by with_unfolding_all decide) _ (by with_unfolding_all decide)

/-- Order transfer for the signed-square encoding: for a nonnegative
threshold `t` and positive variance `V`, the encoded comparison
`sgnSq t < sgnSq d / V` holds exactly when `d` is positive and
`sgnSq t * V < d ^ 2` — i.e. the real comparison `t < d / sqrt V`. -/
theorem sgnSq_lt_div_iff {t d V : ℚ} (ht : 0 ≤ t) (hV : 0 < V) :
    sgnSq t < sgnSq d / V ↔ 0 < d ∧ sgnSq t * V < d ^ 2 := by
  constructor
  · intro h
    rcases le_or_lt d 0 with hd | hd
    · exfalso
      have h1 : sgnSq d ≤ 0 := by
        unfold sgnSq
        rw [abs_of_nonpos hd]
        nlinarith
      have h2 : sgnSq d / V ≤ 0 := div_nonpos_of_nonpos_of_nonneg h1 hV.le
      have h3 : 0 ≤ sgnSq t := by
        unfold sgnSq
        rw [abs_of_nonneg ht]
        positivity
      linarith
    · have hsd : sgnSq d = d ^ 2 := by
        unfold sgnSq
        rw [abs_of_pos hd]
        ring
      rw [hsd, lt_div_iff₀ hV] at h
      exact ⟨hd, h⟩
  · rintro ⟨hd, hlt⟩
    have hsd : sgnSq d = d ^ 2 := by
      unfold sgnSq
      rw [abs_of_pos hd]
      ring
    rw [hsd, lt_div_iff₀ hV]
    exact hlt

/-- The magnitude of an encoded z-score: `|sgnSq d / V| = d ^ 2 / V` for
`V > 0`. -/
theorem abs_sgnSq_div {d V : ℚ} (hV : 0 < V) :
    |sgnSq d / V| = d ^ 2 / V := by
  unfold sgnSq
  rw [abs_div, abs_of_pos hV, abs_mul, abs_abs, ← sq_abs]
  ring_nf

/-- Claim C9 counterexample: in the legacy transformer the outlier flag
is the SIGNED comparison `z > 2`, not a magnitude comparison.  On the
table of one price 0 against nine prices 10, the price-0 row has z-score
−3 (encoded −9): its magnitude exceeds the threshold 2, so the claim
says it must be flagged, but `est_millésime` is false. -/
theorem C9_counterexample :
    (EtlVins.transformer_et_enrichir_donnees dfZNeg).map
        (fun r => (r.est_millesime,
          specMagnitudeFlag r.Z_Score_Prix EtlVins.seuil_millesime)) =
      (false, true) :: List.replicate 9 (false, false) := by
  with_unfolding_all decide

/-- Claim C9 as amended: in the legacy transformer the flag is the
signed comparison `z > seuil` (only high-priced outliers are flagged),
characterised over the underlying statistics; in the fixed pipeline's
audit the flag IS the magnitude comparison the claim describes, with
threshold 3: `|z| > 3`, i.e. `9 * popVar < (price - mean) ^ 2` over the
non-null price population. -/
theorem C9_amended :
    (∀ (df : List EtlVins.FinalRow), 2 ≤ df.length →
      (¬ ∀ r ∈ df, ∀ r' ∈ df, r.price = r'.price) →
      ∀ row ∈ EtlVins.transformer_et_enrichir_donnees df,
        (row.est_millesime = true ↔
          meanQ (df.map EtlVins.FinalRow.price) < row.price ∧
            sgnSq EtlVins.seuil_millesime *
                popVar (df.map EtlVins.FinalRow.price) <
              (row.price - meanQ (df.map EtlVins.FinalRow.price)) ^ 2)) ∧
    (∀ (df : List EtlVinsFix.FFinalRow) (r : EtlVinsFix.FFinalRow),
      EtlVinsFix.auditOutlierFlag (EtlVinsFix.pricesOf df) r = true ↔
        ∃ p, r.price = some p ∧ popVar (EtlVinsFix.pricesOf df) ≠ 0 ∧
          sgnSq 3 * popVar (EtlVinsFix.pricesOf df) <
            (p - meanQ (EtlVinsFix.pricesOf df)) ^ 2) := by
  constructor
  · intro df h2 hne row hrow
    obtain ⟨hpv, _, hflag⟩ := transformer_Z_of_ne df h2 hne row hrow
    rw [hflag, decide_eq_true_iff,
      sgnSq_lt_div_iff (by norm_num [EtlVins.seuil_millesime]) hpv,
      sub_pos]
  · intro df r
    cases hp : r.price with
    | none =>
      have hflag :
          EtlVinsFix.auditOutlierFlag (EtlVinsFix.pricesOf df) r = false := by
        unfold EtlVinsFix.auditOutlierFlag
        rw [hp]
      rw [hflag]
      simp
    | some p =>
      have hflag : EtlVinsFix.auditOutlierFlag (EtlVinsFix.pricesOf df) r =
          match zEnc (EtlVinsFix.pricesOf df) p with
          | none => false
          | some z => decide (sgnSq 3 < |z|) := by
        unfold EtlVinsFix.auditOutlierFlag
        rw [hp]
      rw [hflag]
      unfold zEnc
      by_cases hv : popVar (EtlVinsFix.pricesOf df) = 0
      · rw [if_pos hv]
        simp [hv]
      · have hpv : 0 < popVar (EtlVinsFix.pricesOf df) :=
          lt_of_le_of_ne (popVar_nonneg _) (Ne.symm hv)
        rw [if_neg hv]
        simp only [decide_eq_true_iff, abs_sgnSq_div hpv, Option.some.injEq]
        constructor
        · intro h
          refine ⟨p, rfl, hv, ?_⟩
          rw [lt_div_iff₀ hpv] at h
          linarith
        · rintro ⟨p', hp', _, h⟩
          obtain rfl : p' = p := hp'.symm
          rw [lt_div_iff₀ hpv]
          linarith

/-- Witness for the amended C9: the flag characterisation instantiated at
a concrete row (price 10) of the 0/10-prices table. -/
theorem C9_amended_witness :
    (⟨⟨some 1, none, 10, none, "", some 0, none⟩, some 0, some (1 / 9),
        false⟩ : EtlVins.EnrichedRow).est_millesime = true ↔
      meanQ (dfZNeg.map EtlVins.FinalRow.price) <
          (⟨⟨some 1, none, 10, none, "", some 0, none⟩, some 0,
            some (1 / 9), false⟩ : EtlVins.EnrichedRow).price ∧
        sgnSq EtlVins.seuil_millesime *
            popVar (dfZNeg.map EtlVins.FinalRow.price) <
          ((⟨⟨some 1, none, 10, none, "", some 0, none⟩, some 0,
            some (1 / 9), false⟩ : EtlVins.EnrichedRow).price -
              meanQ (dfZNeg.map EtlVins.FinalRow.price)) ^ 2 :=
  C9_amended.1 dfZNeg (by with_unfolding_all decide)
    (by with_unfolding_all decide) _ (by with_unfolding_all decide)

/-- Bool-predicate partition of list counts: filtering by `p` and by its
negation splits every element's multiplicity. -/
theorem count_filter_partition {α : Type} [DecidableEq α] (p : α → Bool)
    (l : List α) (a : α) :
    (l.filter p).count a + (l.filter fun x => !p x).count a = l.count a := by
  induction l with
  | nil => simp
  | cons b t ih =>
    cases hb : p b with
    | true =>
      simp [List.filter_cons, hb, List.count_cons, ← ih]
      omega
    | false =>
      simp [List.filter_cons, hb, List.count_cons, ← ih]
      omega

/-- With at least two reconciled rows the z-score column is never NaN:
either the zero-variance guard fires (z = 0) or the population variance
is nonzero and scipy's z-score is defined. -/
theorem zColumn_isSome (df : List EtlVins.FinalRow) (h2 : 2 ≤ df.length)
    (x : ℚ) : (EtlVins.zColumn df x).isSome := by
  set ps := df.map EtlVins.FinalRow.price with hps
  have hlen : 2 ≤ ps.length := by simpa [hps] using h2
  unfold EtlVins.zColumn
  rw [← hps]
  by_cases hg : sampleVarOpt ps = some 0
  · rw [if_pos hg]
    rfl
  · rw [if_neg hg]
    unfold zEnc
    have hS : sumSqDev ps ≠ 0 := by
      intro h0
      apply hg
      unfold sampleVarOpt
      rw [if_pos hlen, h0]
      simp
    have hn : (ps.length : ℚ) ≠ 0 := by
      have : ps ≠ [] := by
        intro h
        rw [h] at hlen
        simp at hlen
      simpa using this
    have hpv : popVar ps ≠ 0 := by
      unfold popVar
      exact div_ne_zero hS hn
    rw [if_neg hpv]
    rfl

/-- Claim C10 counterexample: on a single-row reconciled table the
z-score is NaN (sample std of one row is NaN, so the guard passes to
scipy's 0/0); pandas comparisons against NaN are false on BOTH sides, so
the row lands in neither `df_premium` (z > 2) nor `df_ordinaire`
(z ≤ 2): the two exports do not partition the table — the row is
dropped from both. -/
theorem C10_counterexample :
    EtlVins.df_premium (EtlVins.transformer_et_enrichir_donnees dfSingle7) = [] ∧
    EtlVins.df_ordinaire (EtlVins.transformer_et_enrichir_donnees dfSingle7) = [] ∧
    (EtlVins.transformer_et_enrichir_donnees dfSingle7).length = 1 := by
  refine ⟨?_, ?_, ?_⟩
  · with_unfolding_all decide
  · with_unfolding_all decide
  · with_unfolding_all decide

/-- Claim C10 as amended: for every reconciled table with at least two
rows, the premium subset (z > 2) and the ordinary subset (z ≤ 2)
partition the transformer output — each row's multiplicity in the table
equals the sum of its multiplicities in the two exports.  (With a single
row the z-score is NaN and the row is dropped from both subsets.) -/
theorem C10_amended (df : List EtlVins.FinalRow) (h2 : 2 ≤ df.length)
    (r : EtlVins.EnrichedRow) :
    (EtlVins.df_premium (EtlVins.transformer_et_enrichir_donnees df)).count r +
      (EtlVins.df_ordinaire (EtlVins.transformer_et_enrichir_donnees df)).count r =
      (EtlVins.transformer_et_enrichir_donnees df).count r := by
  set E := EtlVins.transformer_et_enrichir_donnees df with hE
  have hsome : ∀ row ∈ E, row.Z_Score_Prix.isSome := by
    intro row hrow
    obtain ⟨x, _, rfl⟩ := transformer_mem df row hrow
    exact zColumn_isSome df h2 x.price
  have hord : EtlVins.df_ordinaire E = E.filter fun x =>
      !(EtlVins.optGtB x.Z_Score_Prix (sgnSq EtlVins.seuil_millesime)) := by
    unfold EtlVins.df_ordinaire
    refine List.filter_congr ?_
    intro x hx
    obtain ⟨z, hz⟩ := Option.isSome_iff_exists.mp (hsome x hx)
    rw [hz]
    show decide (z ≤ sgnSq EtlVins.seuil_millesime) =
      !decide (sgnSq EtlVins.seuil_millesime < z)
    simp [← not_lt]
  rw [hord]
  unfold EtlVins.df_premium
  exact count_filter_partition _ E r

/-- Witness for the amended C10 at the two-row table of prices 1 and 2,
counting the enriched price-1 row. -/
theorem C10_amended_witness :
    (EtlVins.df_premium (EtlVins.transformer_et_enrichir_donnees dfPair12)).count
        ⟨⟨some 1, none, 1, none, "", some 0, none⟩, some 0, some (-1), false⟩ +
      (EtlVins.df_ordinaire (EtlVins.transformer_et_enrichir_donnees dfPair12)).count
        ⟨⟨some 1, none, 1, none, "", some 0, none⟩, some 0, some (-1), false⟩ =
      (EtlVins.transformer_et_enrichir_donnees dfPair12).count
        ⟨⟨some 1, none, 1, none, "", some 0, none⟩, some 0, some (-1), false⟩ :=
  C10_amended dfPair12 (by with_unfolding_all decide) _
